import Mathlib

/-!
Verification development for `mpatterns.py` — a minimal regex-based
argument-validation library.

The embedding mirrors `src/mpatterns.py`:

* the regular-expression subset the module uses (character classes, Kleene
  star over a class, the `$` end anchor) is embedded as `Rtok` lists, and
  `re_match` models Python's `re.match` on that subset — in particular `$`
  keeps Python's default-mode semantics: it matches at the end of the
  string or just before a newline that ends the string;
* `Validator`, `PatternValidator` (with its private `_validate_pattern` /
  `_validate_patterns` helpers), the `Validate` classmethod, the three
  named subclasses and `ValidateDecorator` follow the source line by line;
* Python values passed as arguments are modelled by `PyVal`, with `str`
  modelling Python's `str()` conversion used by `_validate_pattern`;
* the decorator's runtime behaviour is modelled by a pure function that
  returns the call's outcome (normal return or raised exception kind)
  together with the list of invocations of the wrapped function, so that
  "`f` is never called" / "`f` is called exactly once" are expressible.
-/

/-- One token of the regex subset used by `mpatterns.py`: a character
class (a union of inclusive ranges; singletons are ranges `(c, c)`), a
starred character class, or the `$` end anchor.  A leading `^` under
`re.match` is a no-op (`re.match` already anchors at position 0), so the
token lists below omit it. -/
inductive Rtok where
  | cls (ranges : List (Char × Char))
  | clsStar (ranges : List (Char × Char))
  | endAnchor
deriving DecidableEq

/-- Membership of a character in a class given as inclusive ranges. -/
def inClass (ranges : List (Char × Char)) (c : Char) : Bool :=
  ranges.any (fun r => decide (r.1 ≤ c) && decide (c ≤ r.2))

/-- Backtracking loop for a starred class: either hand the remaining
input to the continuation `k` (zero further iterations) or consume one
character of the class and continue.  Pure disjunction, so the greedy
order of Python's engine yields the same boolean. -/
def starLoop (ranges : List (Char × Char)) (k : List Char → Bool) :
    List Char → Bool
  | [] => k []
  | c :: s => k (c :: s) || (inClass ranges c && starLoop ranges k s)

/-- Matcher for a token list against the remaining input, with Python
`re.match` semantics: the whole list must match a prefix of the input;
`$` matches when the rest is empty or a single final newline. -/
def matchToks : List Rtok → List Char → Bool
  | [], _ => true
  | Rtok.endAnchor :: rest, s => decide (s = [] ∨ s = ['\n']) && matchToks rest s
  | Rtok.cls _ :: _, [] => false
  | Rtok.cls ranges :: rest, c :: s => inClass ranges c && matchToks rest s
  | Rtok.clsStar ranges :: rest, s => starLoop ranges (fun t => matchToks rest t) s

/-- `bool(re.match(pattern, element))` for the embedded subset. -/
def re_match (pattern : List Rtok) (element : String) : Bool :=
  matchToks pattern element.data

/-- `ALPHANUMERIC_PATTERN = r'^[a-zA-Z_][a-zA-Z0-9_\$]*$'` (the leading
`^` is dropped: it is a no-op under `re.match`). -/
def ALPHANUMERIC_PATTERN : List Rtok :=
  [Rtok.cls [('a', 'z'), ('A', 'Z'), ('_', '_')],
   Rtok.clsStar [('a', 'z'), ('A', 'Z'), ('0', '9'), ('_', '_'), ('$', '$')],
   Rtok.endAnchor]

/-- `NUMERIC_PATTERN = r'[0-9]*$'`. -/
def NUMERIC_PATTERN : List Rtok :=
  [Rtok.clsStar [('0', '9')], Rtok.endAnchor]

/-- `ALPHA_PATTERN = r'[a-zA-Z_]*$'`. -/
def ALPHA_PATTERN : List Rtok :=
  [Rtok.clsStar [('a', 'z'), ('A', 'Z'), ('_', '_')], Rtok.endAnchor]

/-- `class Validator`: stores the pattern (`self._pr = pattern_regex`). -/
structure Validator where
  _pr : List Rtok
deriving DecidableEq

/-- `Validator.validate`: `return bool(re.match(self._pr, element))`. -/
def Validator.validate (self : Validator) (element : String) : Bool :=
  re_match self._pr element

example : Validator.validate (Validator.mk NUMERIC_PATTERN) "123" = true := by decide
example : Validator.validate (Validator.mk NUMERIC_PATTERN) "12a" = false := by decide
example : Validator.validate (Validator.mk NUMERIC_PATTERN) "123\n" = true := by decide
example : Validator.validate (Validator.mk ALPHANUMERIC_PATTERN) "_a9$" = true := by decide
example : Validator.validate (Validator.mk ALPHANUMERIC_PATTERN) "" = false := by decide

/-- A Python value passed as an argument to `validate` or to a guarded
function: the cases the claims exercise (`None`, `str`, `int`, `bool`). -/
inductive PyVal where
  | vNone
  | vStr (s : String)
  | vInt (n : Int)
  | vBool (b : Bool)
deriving DecidableEq

/-- Python's `str()` conversion, as applied by `_validate_pattern`. -/
def str : PyVal → String
  | PyVal.vNone => "None"
  | PyVal.vStr s => s
  | PyVal.vInt n => toString n
  | PyVal.vBool b => if b then "True" else "False"

/-- `class PatternValidator`: owns one `Validator`
(`self._validator = Validator(pattern_regex)`). -/
structure PatternValidator where
  _validator : Validator
deriving DecidableEq

/-- `PatternValidator.__init__(self, pattern_regex)`. -/
def PatternValidator.init (pattern_regex : List Rtok) : PatternValidator :=
  { _validator := Validator.mk pattern_regex }

/-- `PatternValidator._validate_pattern`:
`return self._validator.validate(str(element))`. -/
def PatternValidator._validate_pattern (self : PatternValidator)
    (element : PyVal) : Bool :=
  self._validator.validate (str element)

/-- `PatternValidator._validate_patterns`:
`return not(False in [self._validate_pattern(e) for e in list(args)])`. -/
def PatternValidator._validate_patterns (self : PatternValidator)
    (args : List PyVal) : Bool :=
  !((args.map (fun e => self._validate_pattern e)).contains false)

/-- `PatternValidator.validate(self, *args, **kwargs)`: positional
arguments are a list, keyword arguments an association list whose
`kwargs.values()` is `kwargs.map Prod.snd` (Python dicts iterate in
insertion order). -/
def PatternValidator.validate (self : PatternValidator) (args : List PyVal)
    (kwargs : List (String × PyVal)) : Bool :=
  self._validate_patterns args &&
    self._validate_patterns (kwargs.map Prod.snd)

/-- `NumericValidator.__init__`:
`PatternValidator.__init__(self, NUMERIC_PATTERN)`. -/
def NumericValidator.init : PatternValidator :=
  PatternValidator.init NUMERIC_PATTERN

/-- `AlphaValidator.__init__`:
`PatternValidator.__init__(self, ALPHA_PATTERN)`. -/
def AlphaValidator.init : PatternValidator :=
  PatternValidator.init ALPHA_PATTERN

/-- `AlphaNumericValidator.__init__`:
`PatternValidator.__init__(self, ALPHANUMERIC_PATTERN)`. -/
def AlphaNumericValidator.init : PatternValidator :=
  PatternValidator.init ALPHANUMERIC_PATTERN

/-- The exception classes of the module, plus Python's built-in
`TypeError`.  All module exceptions are `class ...(Exception): pass` —
nominal, zero-argument kinds. -/
inductive ExcKind where
  | DefaultException
  | NumericValidatorException
  | AlphaValidatorException
  | AlphaNumericValidatorException
  | TypeError
deriving DecidableEq

/-- The class objects on which the classmethod `Validate` (and the
decorator's `type_class` parameter) can be dispatched. -/
inductive ValidatorKind where
  | PatternValidator
  | NumericValidator
  | AlphaValidator
  | AlphaNumericValidator
deriving DecidableEq

/-- The `obj = object.__new__(cls); obj.__init__()` steps of the
classmethod `Validate`.  For the three subclasses, `__init__` takes no
argument and supplies the fixed pattern.  For the base class,
`PatternValidator.__init__(self, pattern_regex)` called with no
`pattern_regex` raises `TypeError` (missing required positional
argument). -/
def classInit : ValidatorKind → Except ExcKind PatternValidator
  | ValidatorKind.PatternValidator => Except.error ExcKind.TypeError
  | ValidatorKind.NumericValidator => Except.ok NumericValidator.init
  | ValidatorKind.AlphaValidator => Except.ok AlphaValidator.init
  | ValidatorKind.AlphaNumericValidator => Except.ok AlphaNumericValidator.init

/-- `PatternValidator.Validate` classmethod: construct with the
zero-argument `__init__`, then `return obj.validate(*args, **kwargs)`.
A `TypeError` from construction propagates as `Except.error`. -/
def PatternValidator.Validate (cls : ValidatorKind) (args : List PyVal)
    (kwargs : List (String × PyVal)) : Except ExcKind Bool :=
  match classInit cls with
  | Except.error e => Except.error e
  | Except.ok obj => Except.ok (obj.validate args kwargs)

/-- Outcome of one call to a decorated function: a normal return of a
Python value (`None` when the wrapper returns nothing), or a raised
exception kind. -/
inductive CallResult where
  | ret (v : PyVal)
  | raised (e : ExcKind)
deriving DecidableEq

/-- `ValidateDecorator(type_class, _return, _raise)` applied to `func`:
the returned `wrap_args` closure.  The second component of the result
records the invocations of `func` (arguments of each call, in order), so
that the wrapper's calling behaviour is observable; the Python code
performs those calls and returns only the first component. -/
def ValidateDecorator (type_class : ValidatorKind) ( _return : Bool)
    ( _raise : ExcKind)
    (func : List PyVal → List (String × PyVal) → PyVal)
    (args : List PyVal) (kwargs : List (String × PyVal)) :
    CallResult × List (List PyVal × List (String × PyVal)) :=
  match PatternValidator.Validate type_class args kwargs with
  | Except.error e => (CallResult.raised e, [])
  | Except.ok passed =>
    if passed then
      (CallResult.ret (if _return then func args kwargs else PyVal.vNone),
        [(args, kwargs)])
    else
      (CallResult.raised _raise, [])

/-- `NumericValidateDecorator(_return)`. -/
def NumericValidateDecorator ( _return : Bool) :=
  ValidateDecorator ValidatorKind.NumericValidator _return
    ExcKind.NumericValidatorException

/-- `AlphaValidateDecorator(_return)`. -/
def AlphaValidateDecorator ( _return : Bool) :=
  ValidateDecorator ValidatorKind.AlphaValidator _return
    ExcKind.AlphaValidatorException

/-- `AlphaNumericValidateDecorator(_return)`. -/
def AlphaNumericValidateDecorator ( _return : Bool) :=
  ValidateDecorator ValidatorKind.AlphaNumericValidator _return
    ExcKind.AlphaNumericValidatorException

example :
    PatternValidator.validate AlphaValidator.init
      [PyVal.vStr "le", PyVal.vStr "reg", PyVal.vStr "__okei"]
      [("option", PyVal.vStr "zeke")] = true := by decide

example :
    PatternValidator.validate AlphaValidator.init
      [PyVal.vStr "le", PyVal.vStr "reg", PyVal.vStr "__okei"]
      [("option", PyVal.vStr "982092878")] = false := by decide

example :
    NumericValidateDecorator true
      (fun a _ =>
        match a with
        | [PyVal.vInt x, PyVal.vInt y] => PyVal.vInt (x + y)
        | _ => PyVal.vNone)
      [PyVal.vInt 1, PyVal.vInt 2] [] =
    (CallResult.ret (PyVal.vInt 3),
      [([PyVal.vInt 1, PyVal.vInt 2], ([] : List (String × PyVal)))]) := by decide

/-- The single-value matcher with the numeric pattern (`numericMatcher`
in the spec). -/
def numericMatcher : Validator := Validator.mk NUMERIC_PATTERN

/-- The single-value matcher with the alpha pattern (`alphaMatcher` in
the spec). -/
def alphaMatcher : Validator := Validator.mk ALPHA_PATTERN

/-- The single-value matcher with the identifier pattern
(`alphaNumericMatcher` in the spec). -/
def alphaNumericMatcher : Validator := Validator.mk ALPHANUMERIC_PATTERN

/-- Modelled from the spec: the amended characterization of the numeric
pattern — digit characters only, optionally followed by one final
newline (which Python's `$` permits in default mode). -/
def digitsOptNl : List Char → Bool
  | [] => true
  | c :: s =>
      (decide (c = '\n') && decide (s = [])) ||
        (decide ('0' ≤ c) && decide (c ≤ '9') && digitsOptNl s)

theorem validate_patterns_eq_all (pv : PatternValidator) (l : List PyVal) :
    pv._validate_patterns l = l.all (fun e => pv._validate_pattern e) := by
  induction l with
  | nil => rfl
  | cons a t ih =>
    cases h : pv._validate_pattern a <;>
      simp_all [PatternValidator._validate_patterns]

theorem matchToks_numeric (cs : List Char) :
    matchToks NUMERIC_PATTERN cs = digitsOptNl cs := by
  induction cs with
  | nil => rfl
  | cons c s ih =>
    simp only [NUMERIC_PATTERN, matchToks, starLoop, inClass] at ih ⊢
    rw [ih]
    simp [digitsOptNl, Bool.decide_or, Bool.decide_and, List.cons.injEq,
      Bool.and_assoc]

/-- Claim C1: `PatternValidator(p).validate(*args, **kwargs)` is true iff
the `str` of every positional argument matches `p` and the `str` of
every keyword-argument value matches `p`; a call with no positional and
no keyword arguments is true for every pattern. -/
theorem validate_iff_all (p : List Rtok) (args : List PyVal)
    (kwargs : List (String × PyVal)) :
    ((PatternValidator.init p).validate args kwargs = true ↔
      ((∀ a ∈ args, re_match p (str a) = true) ∧
        (∀ kv ∈ kwargs, re_match p (str kv.2) = true))) ∧
    (PatternValidator.init p).validate [] [] = true := by
  refine ⟨?_, rfl⟩
  rw [PatternValidator.validate, validate_patterns_eq_all,
    validate_patterns_eq_all, Bool.and_eq_true, List.all_eq_true,
    List.all_eq_true]
  constructor
  · rintro ⟨h1, h2⟩
    exact ⟨fun a ha => h1 a ha,
      fun kv hkv => h2 kv.2 (List.mem_map.mpr ⟨kv, hkv, rfl⟩)⟩
  · rintro ⟨h1, h2⟩
    refine ⟨fun a ha => h1 a ha, ?_⟩
    intro v hv
    rcases List.mem_map.mp hv with ⟨kv, hkv, rfl⟩
    exact h2 kv hkv

/-- Claim C2: when some argument of a call to the wrapped function fails
validation, the wrapper raises an instance of the configured error kind
(constructed with no arguments) and the wrapped function is never
invoked (empty invocation list). -/
theorem guard_fail_raises (cls : ValidatorKind) ( _return : Bool)
    ( _raise : ExcKind)
    (func : List PyVal → List (String × PyVal) → PyVal)
    (args : List PyVal) (kwargs : List (String × PyVal))
    (pv : PatternValidator) (hinit : classInit cls = Except.ok pv)
    (hfail : (∃ a ∈ args, pv._validate_pattern a = false) ∨
      (∃ kv ∈ kwargs, pv._validate_pattern kv.2 = false)) :
    ValidateDecorator cls _return _raise func args kwargs =
      (CallResult.raised _raise, []) := by
  have hv : pv.validate args kwargs = false := by
    rw [PatternValidator.validate, validate_patterns_eq_all,
      validate_patterns_eq_all]
    rcases hfail with ⟨a, ha, hfa⟩ | ⟨kv, hkv, hfv⟩
    · have : args.all (fun e => pv._validate_pattern e) = false :=
        List.all_eq_false.mpr ⟨a, ha, by simp [hfa]⟩
      simp [this]
    · have : (kwargs.map Prod.snd).all (fun e => pv._validate_pattern e) = false :=
        List.all_eq_false.mpr
          ⟨kv.2, List.mem_map.mpr ⟨kv, hkv, rfl⟩, by simp [hfv]⟩
      simp [this]
  simp only [ValidateDecorator, PatternValidator.Validate, hinit, hv,
    Bool.false_eq_true, if_false]

theorem guard_fail_raises_witness :
    ValidateDecorator ValidatorKind.NumericValidator true
      ExcKind.DefaultException (fun _ _ => PyVal.vNone)
      [PyVal.vStr "ab"] [] =
      (CallResult.raised ExcKind.DefaultException, []) :=
  guard_fail_raises ValidatorKind.NumericValidator true
    ExcKind.DefaultException (fun _ _ => PyVal.vNone)
    [PyVal.vStr "ab"] [] NumericValidator.init rfl
    (Or.inl ⟨PyVal.vStr "ab", by decide, by decide⟩)

/-- Claim C3: when every argument passes validation, the wrapped
function is invoked exactly once with the call's arguments, and the
wrapper returns its result when the propagate flag is true and `None`
(no usable value) when the flag is false. -/
theorem guard_success_calls_once (cls : ValidatorKind) ( _return : Bool)
    ( _raise : ExcKind)
    (func : List PyVal → List (String × PyVal) → PyVal)
    (args : List PyVal) (kwargs : List (String × PyVal))
    (pv : PatternValidator) (hinit : classInit cls = Except.ok pv)
    (hpass : pv.validate args kwargs = true) :
    ValidateDecorator cls _return _raise func args kwargs =
      (CallResult.ret (if _return then func args kwargs else PyVal.vNone),
        [(args, kwargs)]) := by
  simp only [ValidateDecorator, PatternValidator.Validate, hinit, hpass,
    if_true]

theorem guard_success_calls_once_witness :
    ValidateDecorator ValidatorKind.NumericValidator false
      ExcKind.DefaultException (fun _ _ => PyVal.vInt 7)
      [PyVal.vInt 1, PyVal.vInt 2] [] =
      (CallResult.ret PyVal.vNone,
        [([PyVal.vInt 1, PyVal.vInt 2], ([] : List (String × PyVal)))]) := by
  have h := guard_success_calls_once ValidatorKind.NumericValidator false
    ExcKind.DefaultException (fun _ _ => PyVal.vInt 7)
    [PyVal.vInt 1, PyVal.vInt 2] [] NumericValidator.init rfl (by decide)
  simpa using h

/-- Claim C4, counterexample: the string consisting of one newline
contains a non-digit character, yet the numeric validator accepts it
(Python's `$` matches just before a final newline, and `[0-9]*` matches
the empty prefix). -/
theorem numeric_nondigit_cex :
    numericMatcher.validate "\n" = true ∧
    '\n' ∈ "\n".data ∧ ¬ ('0' ≤ '\n' ∧ '\n' ≤ '9') := by
  refine ⟨by decide, by decide, by decide⟩

/-- Claim C4, amended: `numericMatcher.validate` accepts exactly the
strings made of digits optionally followed by one final newline
(`digitsOptNl`); in particular `validate("123")` is true, `validate("12a")`
is false, `validate("")` is true — but `validate("123\n")` and
`validate("\n")` are also true, so a non-digit in the form of a single
trailing newline is not rejected. -/
theorem numeric_validate_characterization :
    (∀ s : String, numericMatcher.validate s = digitsOptNl s.data) ∧
    numericMatcher.validate "123" = true ∧
    numericMatcher.validate "12a" = false ∧
    numericMatcher.validate "" = true ∧
    numericMatcher.validate "123\n" = true := by
  refine ⟨fun s => matchToks_numeric s.data, by decide, by decide,
    by decide, by decide⟩

/-- Claim C5: the identifier validator accepts `"_a9$"`, rejects
`"9abc"` (leading digit), and rejects the empty string, while the
numeric and alpha validators both accept the empty string. -/
theorem alphanumeric_examples :
    alphaNumericMatcher.validate "_a9$" = true ∧
    alphaNumericMatcher.validate "9abc" = false ∧
    alphaNumericMatcher.validate "" = false ∧
    numericMatcher.validate "" = true ∧
    alphaMatcher.validate "" = true := by
  refine ⟨by decide, by decide, by decide, by decide, by decide⟩

/-- Claim C6: for each of the three named subclasses, the class-level
`Validate(*args, **kwargs)` returns exactly the boolean obtained by
constructing an instance with the zero-argument constructor and calling
`validate(*args, **kwargs)` on it. -/
theorem class_validate_eq_construct_validate (args : List PyVal)
    (kwargs : List (String × PyVal)) :
    PatternValidator.Validate ValidatorKind.NumericValidator args kwargs =
      Except.ok (NumericValidator.init.validate args kwargs) ∧
    PatternValidator.Validate ValidatorKind.AlphaValidator args kwargs =
      Except.ok (AlphaValidator.init.validate args kwargs) ∧
    PatternValidator.Validate ValidatorKind.AlphaNumericValidator args kwargs =
      Except.ok (AlphaNumericValidator.init.validate args kwargs) :=
  ⟨rfl, rfl, rfl⟩

/-- Claim C7: both validate operations are total boolean functions of
their (well-formed) inputs: for every pattern, string and argument
lists, each returns `true` or `false` — there is no exceptional
outcome in their types. -/
theorem validate_returns_bool (v : Validator) (e : String)
    (pv : PatternValidator) (args : List PyVal)
    (kwargs : List (String × PyVal)) :
    (v.validate e = true ∨ v.validate e = false) ∧
    (pv.validate args kwargs = true ∨ pv.validate args kwargs = false) := by
  refine ⟨?_, ?_⟩
  · cases v.validate e <;> simp
  · cases pv.validate args kwargs <;> simp

/-- Claim C8: each named decorator factory is the generic
`ValidateDecorator` instantiated with its fixed validator kind and its
matching error kind. -/
theorem named_decorators_def ( _return : Bool) :
    NumericValidateDecorator _return =
      ValidateDecorator ValidatorKind.NumericValidator _return
        ExcKind.NumericValidatorException ∧
    AlphaValidateDecorator _return =
      ValidateDecorator ValidatorKind.AlphaValidator _return
        ExcKind.AlphaValidatorException ∧
    AlphaNumericValidateDecorator _return =
      ValidateDecorator ValidatorKind.AlphaNumericValidator _return
        ExcKind.AlphaNumericValidatorException :=
  ⟨rfl, rfl, rfl⟩

/-- Claim C9: keyword-argument names are never validated — two calls
with the same positional arguments whose keyword values agree as
multisets (here: up to permutation) yield the same boolean, whatever
the keyword names are. -/
theorem kwarg_names_ignored (pv : PatternValidator) (args : List PyVal)
    (kw1 kw2 : List (String × PyVal))
    (h : List.Perm (kw1.map Prod.snd) (kw2.map Prod.snd)) :
    pv.validate args kw1 = pv.validate args kw2 := by
  rw [PatternValidator.validate, PatternValidator.validate]
  congr 1
  rw [validate_patterns_eq_all, validate_patterns_eq_all]
  apply Bool.eq_iff_iff.mpr
  rw [List.all_eq_true, List.all_eq_true]
  exact ⟨fun H x hx => H x (h.mem_iff.mpr hx),
    fun H x hx => H x (h.mem_iff.mp hx)⟩

theorem kwarg_names_ignored_witness :
    (AlphaValidator.init.validate [] [("123!", PyVal.vStr "abc")] =
      AlphaValidator.init.validate [] [("option", PyVal.vStr "abc")]) ∧
    AlphaValidator.init.validate [] [("123!", PyVal.vStr "abc")] = true :=
  ⟨kwarg_names_ignored AlphaValidator.init []
      [("123!", PyVal.vStr "abc")] [("option", PyVal.vStr "abc")]
      (List.Perm.refl [PyVal.vStr "abc"]),
    by decide⟩

/-- Claim C10: the class-level `Validate` on the base `PatternValidator`
class raises `TypeError` for every combination of arguments (the
zero-argument `__init__()` call is missing the required `pattern_regex`)
and never returns a boolean. -/
theorem base_class_validate_type_error (args : List PyVal)
    (kwargs : List (String × PyVal)) :
    PatternValidator.Validate ValidatorKind.PatternValidator args kwargs =
      Except.error ExcKind.TypeError ∧
    ∀ b : Bool,
      PatternValidator.Validate ValidatorKind.PatternValidator args kwargs ≠
        Except.ok b := by
  refine ⟨rfl, ?_⟩
  intro b h
  simp [PatternValidator.Validate, classInit] at h
